import Mathlib

/-!
Verification of the NanoSploit HIL-emulator and attack-replay orchestration
core, shallowly embedded from `src/nanosploit/core/hil_emulator.py` and
`src/nanosploit/ops/attack_replay.py`.

Python dictionaries with possibly-absent keys are modelled as structures of
`Option` fields; `dict.get(k, d)` becomes `Option.getD`.  The filesystem and
the spawned subprocess are modelled as explicit inputs (`FSEnv`,
`ProcBehavior`), and the side effects of one `_run_qemu` invocation (temp
directory creation/removal, process spawn, explicit termination) are recorded
in a `RunEffects` value, following the source line by line.
-/

namespace NanoSploit

/-! ### String helpers: Python `pat in s` substring containment -/

/-- Python substring test, prefix part: does `pat` start the character list? -/
def isPrefixChars : List Char → List Char → Bool
  | [], _ => true
  | _ :: _, [] => false
  | a :: as, b :: bs => a == b && isPrefixChars as bs

/-- Python substring test: does `pat` occur contiguously inside `s`? -/
def hasSubChars (pat : List Char) : List Char → Bool
  | [] => isPrefixChars pat []
  | s@(_ :: rest) => isPrefixChars pat s || hasSubChars pat rest

/-- Python `pat in s` on strings. -/
def containsSub (s pat : String) : Bool :=
  hasSubChars pat.toList s.toList

/-- Python `str.lower()`, written over the character data so it computes by
kernel reduction (ASCII behaviour agrees with usage in the source). -/
def pyLower (s : String) : String := String.mk (s.data.map Char.toLower)

/-! ### Embedding of `hil_emulator.py` -/

/-- The result dictionary built by `HILEmulator._run_qemu` (and the
`except`-path error dictionary): keys that a given path does not set are
`none`. -/
structure QemuResult where
  stdout : Option String
  stderr : Option String
  returncode : Option Int
  error : Option String
  mode : String
deriving DecidableEq, Repr

/-- `HILEmulator._calculate_risk`: reads only `result.get("stderr", "")`,
lower-cases it, and applies the ordered substring rules. -/
def calculate_risk (result : QemuResult) : ℚ :=
  let stderr := pyLower (result.stderr.getD "")
  if containsSub stderr "segfault" || containsSub stderr "panic" then 9/10
  else if containsSub stderr "error" then 7/10
  else 2/10

/-- Filesystem state of the two artifact files.  `firmwareExists` and
`payloadExists` are the `os.path.isfile` results (a missing/empty path
behaves like a missing file); `firmwareReadable` and `payloadReadable` say
whether `shutil.copy2` of that artifact succeeds — an existing but
unreadable file passes the `isfile` check and makes the copy raise
`PermissionError` inside the `try`. -/
structure FSEnv where
  firmwareExists : Bool
  payloadExists : Bool
  firmwareReadable : Bool
  payloadReadable : Bool
deriving DecidableEq, Repr

/-- Behavior of the spawned QEMU child process, abstracting
`subprocess.Popen` + `communicate(timeout=60)`: it completes with captured
streams and a return code, raises `TimeoutExpired`, or fails to spawn. -/
inductive ProcBehavior
  | completed (stdout stderr : String) (returncode : Int)
  | timedOut (msg : String)
  | spawnFailed (msg : String)
deriving DecidableEq, Repr

/-- Observable side effects of one `_run_qemu` invocation. -/
structure RunEffects where
  tempDirCreated : Bool
  tempDirRemoved : Bool
  processSpawned : Bool
  terminateCalled : Bool
deriving DecidableEq, Repr

/-- How one `_run_qemu` invocation ends: a propagated exception
(`FileNotFoundError` is raised before the `try` block) or a returned
result dictionary. -/
inductive RunOutcome
  | raised (msg : String)
  | returned (r : QemuResult)
deriving DecidableEq, Repr

/-- Emulator configuration fields used by `_run_qemu`/`_build_qemu_cmd`. -/
structure EmuConfig where
  arch : String
  firmware_path : String
  payload_path : String
  qemu_path : String
deriving DecidableEq, Repr

def noEffects : RunEffects := ⟨false, false, false, false⟩

/-- The `except`-path dictionary `{"error": str(e), "mode": "qemu"}`. -/
def errResult (msg : String) : QemuResult := ⟨none, none, none, some msg, "qemu"⟩

/-- The normal-path dictionary with stdout/stderr/returncode. -/
def okResult (stdout stderr : String) (rc : Int) : QemuResult :=
  ⟨some stdout, some stderr, some rc, none, "qemu"⟩

/-- Binary selection in `HILEmulator._build_qemu_cmd`: `arm` uses the
configured `qemu_path`, `riscv`/`mips` use fixed binaries, anything else
raises `ValueError`. -/
def qemu_bin_for (arch qemu_path : String) : Except String String :=
  if arch == "arm" then .ok qemu_path
  else if arch == "riscv" then .ok "qemu-system-riscv32"
  else if arch == "mips" then .ok "qemu-system-mips"
  else .error ("Unsupported arch for QEMU: " ++ arch)

/-- `HILEmulator._build_qemu_cmd`: the shell command string. -/
def build_qemu_cmd (arch qemu_path firmware payload : String) : Except String String :=
  (qemu_bin_for arch qemu_path).map fun qemu_bin =>
    qemu_bin ++ " -kernel " ++ firmware ++ " -append \x27init=" ++ payload ++ "\x27 -nographic"

/-- `HILEmulator._run_qemu`, following the source control flow:
file-existence checks raise before `mkdtemp`; then the temp directory is
created and the firmware and payload are copied in — a `PermissionError`
from `shutil.copy2` on an existing-but-unreadable artifact is caught by the
generic `except` and converted into an error dictionary — then the command
is built (`ValueError` for an unsupported arch is caught the same way), the
process run, and the temp directory removed in the `finally` on every path.
No code path calls `kill`/`terminate` on the child. -/
def run_qemu (cfg : EmuConfig) (fs : FSEnv) (proc : ProcBehavior) :
    RunOutcome × RunEffects :=
  if fs.firmwareExists = false then
    (.raised ("Firmware not found: " ++ cfg.firmware_path), noEffects)
  else if fs.payloadExists = false then
    (.raised ("Payload not found: " ++ cfg.payload_path), noEffects)
  else if fs.firmwareReadable = false then
    (.returned (errResult ("Permission denied: " ++ cfg.firmware_path)),
      ⟨true, true, false, false⟩)
  else if fs.payloadReadable = false then
    (.returned (errResult ("Permission denied: " ++ cfg.payload_path)),
      ⟨true, true, false, false⟩)
  else
    match build_qemu_cmd cfg.arch cfg.qemu_path cfg.firmware_path cfg.payload_path with
    | .error msg => (.returned (errResult msg), ⟨true, true, false, false⟩)
    | .ok _ =>
      match proc with
      | .completed out err rc => (.returned (okResult out err rc), ⟨true, true, true, false⟩)
      | .timedOut msg => (.returned (errResult msg), ⟨true, true, true, false⟩)
      | .spawnFailed msg => (.returned (errResult msg), ⟨true, true, false, false⟩)

/-! ### Embedding of `attack_replay.py` -/

/-- The dictionary a module returns from `simulate_attack`; keys the module
may omit are `none` (the caller reads them with `.get` and a default). -/
structure SimResult where
  success : Option Bool
  impact : Option String
  log : Option String

/-- One chain-step dictionary.  The vulnerability value and the option
value have abstract types `V` and `O`; absent keys are `none`. -/
structure ChainStep (V O : Type) where
  device_type : Option String
  device_name : Option String
  action : Option String
  vuln : Option V
  options : Option O

/-- An exploit module: the `craft_exploit`/`simulate_attack` capability pair,
with an abstract exploit type `E`.  The engine never inspects `E`. -/
structure ExploitModule (V O E : Type) where
  craft_exploit : V → O → E
  simulate_attack : E → SimResult

/-- One entry of the list `AttackReplay.replay_chain` returns. -/
structure StepResult where
  device : String
  action : String
  success : Bool
  impact : String
  log : String
deriving DecidableEq, Repr

/-- The body of the `for step in self.chain_steps` loop in
`AttackReplay.replay_chain`: resolve the module by device type, and either
run the module (when both a module and a vulnerability reference are
present) or fall back to the mock result. -/
def replay_step {V O E : Type} (modules : String → Option (ExploitModule V O E))
    (emptyOptions : O) (step : ChainStep V O) : StepResult :=
  let device_type := step.device_type.getD "generic"
  match modules device_type, step.vuln with
  | some m, some v =>
    let exploit := m.craft_exploit v (step.options.getD emptyOptions)
    let sim := m.simulate_attack exploit
    { device := step.device_name.getD "unknown"
      action := step.action.getD "unknown"
      success := sim.success.getD false
      impact := sim.impact.getD "N/A"
      log := sim.log.getD "" }
  | _, _ =>
    { device := step.device_name.getD "unknown"
      action := step.action.getD "unknown"
      success := true
      impact := "Mock impact."
      log := "Replayed " ++ step.action.getD "unknown" ++ " on " ++
        step.device_name.getD "unknown" ++ " (mock)" }

/-- The accumulator loop of `AttackReplay.replay_chain`
(`results = []; for step in ...: results.append(result)`). -/
def replay_loop {V O E : Type} (modules : String → Option (ExploitModule V O E))
    (emptyOptions : O) (acc : List StepResult) :
    List (ChainStep V O) → List StepResult
  | [] => acc
  | step :: rest =>
    replay_loop modules emptyOptions (acc ++ [replay_step modules emptyOptions step]) rest

/-- `AttackReplay.replay_chain`. -/
def replay_chain {V O E : Type} (modules : String → Option (ExploitModule V O E))
    (emptyOptions : O) (steps : List (ChainStep V O)) : List StepResult :=
  replay_loop modules emptyOptions [] steps

/-- The summary dictionary built by `AttackReplay.analyze_results`. -/
structure Summary where
  chain_name : String
  total_steps : Nat
  successes : Nat
  failures : Nat
  impacts : List String
  overall_success : Bool
deriving DecidableEq, Repr

/-- `AttackReplay.analyze_results`. -/
def analyze_results (chain_name : String) (results : List StepResult) : Summary :=
  let total := results.length
  let successes := results.countP (fun r => r.success)
  { chain_name := chain_name
    total_steps := total
    successes := successes
    failures := total - successes
    impacts := results.map (fun r => r.impact)
    overall_success := successes == total }

/-! ### JSON model for the persisted report (`AttackReplay.generate_report`) -/

/-- The JSON values `json.dump` writes and `json.load` reads back. -/
inductive Json
  | str (s : String)
  | num (n : Int)
  | bool (b : Bool)
  | arr (xs : List Json)
  | obj (fields : List (String × Json))

/-- Key lookup in the field list of a JSON object. -/
def lookupField : List (String × Json) → String → Option Json
  | [], _ => none
  | (k, v) :: rest, key => if k == key then some v else lookupField rest key

/-- Key lookup on a JSON value (objects only). -/
def jsonGet : Json → String → Option Json
  | .obj fields, key => lookupField fields key
  | _, _ => none

/-- JSON encoding of one step-result dictionary. -/
def resultJson (r : StepResult) : Json :=
  .obj [("device", .str r.device), ("action", .str r.action),
        ("success", .bool r.success), ("impact", .str r.impact),
        ("log", .str r.log)]

/-- JSON encoding of the summary dictionary. -/
def summaryJson (s : Summary) : Json :=
  .obj [("chain_name", .str s.chain_name), ("total_steps", .num (s.total_steps : Int)),
        ("successes", .num (s.successes : Int)), ("failures", .num (s.failures : Int)),
        ("impacts", .arr (s.impacts.map .str)),
        ("overall_success", .bool s.overall_success)]

/-- `AttackReplay.generate_report`: the report dictionary written to the
output path (JSON serialisation then parsing of this value is the
identity, so the on-disk artifact read back is this value). -/
def generate_report (chain_name : String) (results : List StepResult)
    (summary : Summary) : Json :=
  .obj [("chain_name", .str chain_name),
        ("results", .arr (results.map resultJson)),
        ("summary", summaryJson summary)]

/-- Reading the step count back from a persisted report: the length of its
`results` array. -/
def readStepCount (report : Json) : Option Nat :=
  match jsonGet report "results" with
  | some (.arr xs) => some xs.length
  | _ => none

/-- Reading the overall-success flag back from a persisted report. -/
def readOverallSuccess (report : Json) : Option Bool :=
  match jsonGet report "summary" with
  | some s =>
    match jsonGet s "overall_success" with
    | some (.bool b) => some b
    | _ => none
  | _ => none

/-! ### Helper lemmas -/

theorem bool_eq_of_iff {a b : Bool} (h : a = true ↔ b = true) : a = b := by
  cases a <;> cases b <;> simp_all

theorem replay_loop_eq {V O E : Type} (modules : String → Option (ExploitModule V O E))
    (d : O) (acc : List StepResult) (steps : List (ChainStep V O)) :
    replay_loop modules d acc steps = acc ++ steps.map (replay_step modules d) := by
  induction steps generalizing acc with
  | nil => simp [replay_loop]
  | cons s rest ih => simp [replay_loop, ih]

theorem replay_chain_eq_map {V O E : Type} (modules : String → Option (ExploitModule V O E))
    (d : O) (steps : List (ChainStep V O)) :
    replay_chain modules d steps = steps.map (replay_step modules d) := by
  simp [replay_chain, replay_loop_eq]

theorem countP_le_len (p : StepResult → Bool) (l : List StepResult) :
    l.countP p ≤ l.length := by
  induction l with
  | nil => simp
  | cons a l ih => by_cases h : p a <;> simp [List.countP_cons, h] <;> omega

theorem analyze_overall_eq_all (n : String) (rs : List StepResult) :
    (analyze_results n rs).overall_success = rs.all (fun r => r.success) := by
  apply bool_eq_of_iff
  simp [analyze_results, List.countP_eq_length, List.all_eq_true]

/-! ### Claim theorems for the Attack Chain Engine / Replay Aggregator -/

/-- C1: executing a chain of N steps produces exactly N step results, in the
declared step order (the result list is the pointwise image of the step
list, so a failed step never removes or halts later steps), and the derived
summary field `overall_success` is the logical AND (`List.all`) of the N step
success flags. -/
theorem chain_fail_open_and_overall (V O E : Type)
    (modules : String → Option (ExploitModule V O E)) (d : O) (n : String)
    (steps : List (ChainStep V O)) :
    (replay_chain modules d steps).length = steps.length
  ∧ replay_chain modules d steps = steps.map (replay_step modules d)
  ∧ (analyze_results n (replay_chain modules d steps)).overall_success
      = (replay_chain modules d steps).all (fun r => r.success) := by
  refine ⟨?_, replay_chain_eq_map modules d steps, analyze_overall_eq_all n _⟩
  simp [replay_chain_eq_map]

/-- C7: a step with no registered module for its device type, or with no
vulnerability reference, yields the pass-through mock result: success is
`true` and the impact is the fixed non-empty string `"Mock impact."`; and no
chain execution ever drops a step (the result count always equals the step
count). -/
theorem fallback_step_mock (V O E : Type)
    (modules : String → Option (ExploitModule V O E)) (d : O) (step : ChainStep V O)
    (h : modules (step.device_type.getD "generic") = none ∨ step.vuln = none) :
    (replay_step modules d step).success = true
  ∧ (replay_step modules d step).impact = "Mock impact."
  ∧ (replay_step modules d step).impact ≠ ""
  ∧ ∀ steps : List (ChainStep V O),
      (replay_chain modules d steps).length = steps.length := by
  have hmock : replay_step modules d step =
      { device := step.device_name.getD "unknown"
        action := step.action.getD "unknown"
        success := true
        impact := "Mock impact."
        log := "Replayed " ++ step.action.getD "unknown" ++ " on " ++
          step.device_name.getD "unknown" ++ " (mock)" } := by
    rcases h with h | h
    · simp [replay_step, h]
    · cases hm : modules (step.device_type.getD "generic") <;> simp [replay_step, h, hm]
  refine ⟨by simp [hmock], by simp [hmock], by simp [hmock], fun steps => ?_⟩
  simp [replay_chain_eq_map]

/-- C7 witness: a concrete step with no vulnerability reference and an empty
module registry produces the mock result. -/
theorem fallback_step_mock_witness :
    ((fun _ => none : String → Option (ExploitModule Unit Unit Unit))
        ((⟨some "medical", some "pump1", some "exploit", none, none⟩ :
          ChainStep Unit Unit).device_type.getD "generic") = none
      ∨ (⟨some "medical", some "pump1", some "exploit", none, none⟩ :
          ChainStep Unit Unit).vuln = none)
  ∧ (replay_step (fun _ => none : String → Option (ExploitModule Unit Unit Unit)) ()
      ⟨some "medical", some "pump1", some "exploit", none, none⟩).success = true
  ∧ (replay_step (fun _ => none : String → Option (ExploitModule Unit Unit Unit)) ()
      ⟨some "medical", some "pump1", some "exploit", none, none⟩).impact
        = "Mock impact." := by
  have h := fallback_step_mock Unit Unit Unit (fun _ => none) ()
    ⟨some "medical", some "pump1", some "exploit", none, none⟩ (Or.inl rfl)
  exact ⟨Or.inl rfl, h.1, h.2.1⟩

/-- C10: for every result list (the empty list included), the summary
satisfies `successes + failures = total_steps = length`, the impacts list is
the in-order image of the per-step impacts, `overall_success` is true
exactly when `failures = 0`, and the empty list yields `total_steps = 0`
with `overall_success = true`. -/
theorem analyze_results_invariants (n : String) (rs : List StepResult) :
    (analyze_results n rs).successes + (analyze_results n rs).failures
      = (analyze_results n rs).total_steps
  ∧ (analyze_results n rs).total_steps = rs.length
  ∧ (analyze_results n rs).impacts = rs.map (fun r => r.impact)
  ∧ (analyze_results n rs).overall_success = ((analyze_results n rs).failures == 0)
  ∧ (analyze_results n []).total_steps = 0
  ∧ (analyze_results n []).overall_success = true := by
  have hle := countP_le_len (fun r => r.success) rs
  refine ⟨?_, rfl, rfl, ?_, rfl, rfl⟩
  · simp only [analyze_results]
    omega
  · apply bool_eq_of_iff
    simp only [analyze_results, beq_iff_eq]
    omega

/-- C8: persisting the report built from a result list `R` and its summary,
then reading the artifact back, reproduces the same step count (`R.length`)
and the same overall-success value as summarizing `R` directly. -/
theorem report_roundtrip (n : String) (R : List StepResult) :
    readStepCount (generate_report n R (analyze_results n R)) = some R.length
  ∧ readOverallSuccess (generate_report n R (analyze_results n R))
      = some (analyze_results n R).overall_success
  ∧ (analyze_results n R).overall_success = R.all (fun r => r.success) := by
  refine ⟨?_, ?_, analyze_overall_eq_all n R⟩
  · simp [readStepCount, generate_report, jsonGet, lookupField]
  · simp [readOverallSuccess, generate_report, jsonGet, lookupField, summaryJson]

/-! ### Claim theorems for the Risk Scorer and Sandbox Runner -/

/-- C2: the crash-signature rule is evaluated first and first match wins —
whenever the lower-cased captured stderr contains `"segfault"` or `"panic"`
the score is exactly 9/10 regardless of any other tokens (in particular of
`"error"`); otherwise an `"error"` occurrence yields 7/10, and all remaining
inputs yield 2/10. -/
theorem risk_rule_order (r : QemuResult) :
    (containsSub (pyLower (r.stderr.getD "")) "segfault" = true
       ∨ containsSub (pyLower (r.stderr.getD "")) "panic" = true →
     calculate_risk r = 9/10)
  ∧ (containsSub (pyLower (r.stderr.getD "")) "segfault" = false →
     containsSub (pyLower (r.stderr.getD "")) "panic" = false →
     containsSub (pyLower (r.stderr.getD "")) "error" = true →
     calculate_risk r = 7/10)
  ∧ (containsSub (pyLower (r.stderr.getD "")) "segfault" = false →
     containsSub (pyLower (r.stderr.getD "")) "panic" = false →
     containsSub (pyLower (r.stderr.getD "")) "error" = false →
     calculate_risk r = 2/10) := by
  unfold calculate_risk
  refine ⟨fun h => ?_, fun h1 h2 h3 => ?_, fun h1 h2 h3 => ?_⟩
  · rcases h with h | h <;> simp [h]
  · simp [h1, h2, h3]
  · simp [h1, h2, h3]

/-- C2 witness: a stderr with a mixed-case crash signature and the token
`"error"` both present scores 9/10 (the crash rule dominates). -/
theorem risk_rule_order_witness :
    containsSub (pyLower ((some "Segfault: error in guest" : Option String).getD ""))
      "segfault" = true
  ∧ calculate_risk ⟨none, some "Segfault: error in guest", none, none, "qemu"⟩
      = 9/10 := by
  have h : containsSub (pyLower ((⟨none, some "Segfault: error in guest", none, none,
      "qemu"⟩ : QemuResult).stderr.getD "")) "segfault" = true := by decide
  exact ⟨h, (risk_rule_order ⟨none, some "Segfault: error in guest", none, none,
    "qemu"⟩).1 (Or.inl h)⟩

/-- C3 counterexample: a process-backend run whose child times out returns
the generic error dictionary (no stderr key), and the risk scorer gives it
2/10, which is not ≥ 7/10 — there is no exit-status rule in
`_calculate_risk`. -/
theorem risk_timeout_counterexample :
    (run_qemu ⟨"arm", "fw.bin", "pl.bin", "qemu-system-arm"⟩ ⟨true, true, true, true⟩
        (.timedOut "Command timed out after 60 seconds")).1
      = .returned (errResult "Command timed out after 60 seconds")
  ∧ calculate_risk (errResult "Command timed out after 60 seconds") = 2/10
  ∧ ¬ ((7 : ℚ)/10 ≤
        calculate_risk (errResult "Command timed out after 60 seconds")) := by
  have h2 : calculate_risk (errResult "Command timed out after 60 seconds")
      = 2/10 := by
    simp [calculate_risk, errResult, pyLower, containsSub, hasSubChars, isPrefixChars]
  refine ⟨rfl, h2, ?_⟩
  rw [h2]
  norm_num

/-- C3 amended: the risk scorer reads only the stderr text; the timeout and
spawn-failure paths return the error dictionary, whose absent stderr is read
as the empty string, so such runs always score exactly 2/10 (< 7/10),
whatever the exception message says. -/
theorem risk_timeout_amended (cfg : EmuConfig) (fs : FSEnv) (msg : String)
    (pb : ProcBehavior)
    (hf : fs.firmwareExists = true) (hp : fs.payloadExists = true)
    (hfr : fs.firmwareReadable = true) (hpr : fs.payloadReadable = true)
    (ha : cfg.arch = "arm" ∨ cfg.arch = "riscv" ∨ cfg.arch = "mips")
    (hpb : pb = .timedOut msg ∨ pb = .spawnFailed msg) :
    (run_qemu cfg fs pb).1 = .returned (errResult msg)
  ∧ calculate_risk (errResult msg) = 2/10 := by
  have hcmd : ∃ c, build_qemu_cmd cfg.arch cfg.qemu_path cfg.firmware_path
      cfg.payload_path = .ok c := by
    rcases ha with h | h | h <;>
      simp [build_qemu_cmd, qemu_bin_for, h, Except.map]
  rcases hcmd with ⟨c, hc⟩
  constructor
  · rcases hpb with h | h <;> simp [run_qemu, hf, hp, hfr, hpr, hc, h]
  · simp [calculate_risk, errResult, pyLower, containsSub, hasSubChars, isPrefixChars]

/-- C3 amended witness: a concrete timed-out run on `arm`. -/
theorem risk_timeout_amended_witness :
    ((⟨true, true, true, true⟩ : FSEnv).firmwareExists = true
      ∧ (⟨"arm", "f.bin", "p.bin", "qemu-system-arm"⟩ : EmuConfig).arch = "arm")
  ∧ (run_qemu ⟨"arm", "f.bin", "p.bin", "qemu-system-arm"⟩ ⟨true, true, true, true⟩
        (.timedOut "timed out")).1 = .returned (errResult "timed out")
  ∧ calculate_risk (errResult "timed out") = 2/10 := by
  have h := risk_timeout_amended ⟨"arm", "f.bin", "p.bin", "qemu-system-arm"⟩
    ⟨true, true, true, true⟩ "timed out" (.timedOut "timed out") rfl rfl rfl rfl
    (Or.inl rfl) (Or.inl rfl)
  exact ⟨⟨rfl, rfl⟩, h.1, h.2⟩

/-- C4 counterexample: on a concrete timed-out run the code returns the
generic `{"error": ..., "mode": "qemu"}` dictionary — which carries no
return code and no timeout status tag — and never calls kill/terminate on
the child process, so the claimed "forcibly terminates the process and
returns an ExecutionResult with exit status timeout" fails on the code. -/
theorem timeout_handling_counterexample :
    (run_qemu ⟨"arm", "fw.img", "pay.bin", "qemu-system-arm"⟩ ⟨true, true, true, true⟩
        (.timedOut "Command qemu timed out after 60 seconds")).1
      = .returned (errResult "Command qemu timed out after 60 seconds")
  ∧ (errResult "Command qemu timed out after 60 seconds").returncode = none
  ∧ (errResult "Command qemu timed out after 60 seconds").stderr = none
  ∧ (run_qemu ⟨"arm", "fw.img", "pay.bin", "qemu-system-arm"⟩ ⟨true, true, true, true⟩
        (.timedOut "Command qemu timed out after 60 seconds")).2.terminateCalled
      = false := ⟨rfl, rfl, rfl, rfl⟩

/-- C4 amended: on timeout the `TimeoutExpired` exception is caught inside
`_run_qemu` and a generic error dictionary is returned to the caller — no
exception propagates — but the child process is never explicitly terminated
and the result carries no timeout status or return code; the temp directory
is still removed. -/
theorem timeout_handling_amended (cfg : EmuConfig) (fs : FSEnv) (msg : String)
    (hf : fs.firmwareExists = true) (hp : fs.payloadExists = true)
    (hfr : fs.firmwareReadable = true) (hpr : fs.payloadReadable = true)
    (ha : cfg.arch = "arm" ∨ cfg.arch = "riscv" ∨ cfg.arch = "mips") :
    (run_qemu cfg fs (.timedOut msg)).1 = .returned (errResult msg)
  ∧ (errResult msg).returncode = none
  ∧ (run_qemu cfg fs (.timedOut msg)).2.terminateCalled = false
  ∧ (run_qemu cfg fs (.timedOut msg)).2.tempDirRemoved = true := by
  have hcmd : ∃ c, build_qemu_cmd cfg.arch cfg.qemu_path cfg.firmware_path
      cfg.payload_path = .ok c := by
    rcases ha with h | h | h <;>
      simp [build_qemu_cmd, qemu_bin_for, h, Except.map]
  rcases hcmd with ⟨c, hc⟩
  refine ⟨?_, rfl, ?_, ?_⟩ <;> simp [run_qemu, hf, hp, hfr, hpr, hc]

/-- C4 amended witness: a concrete timed-out run on `mips`. -/
theorem timeout_handling_amended_witness :
    ((⟨true, true, true, true⟩ : FSEnv).payloadExists = true
      ∧ (⟨"mips", "f", "p", "qemu-system-arm"⟩ : EmuConfig).arch = "mips")
  ∧ (run_qemu ⟨"mips", "f", "p", "qemu-system-arm"⟩ ⟨true, true, true, true⟩
        (.timedOut "t/o")).1 = .returned (errResult "t/o")
  ∧ (run_qemu ⟨"mips", "f", "p", "qemu-system-arm"⟩ ⟨true, true, true, true⟩
        (.timedOut "t/o")).2.terminateCalled = false := by
  have h := timeout_handling_amended ⟨"mips", "f", "p", "qemu-system-arm"⟩
    ⟨true, true, true, true⟩ "t/o" rfl rfl rfl rfl (Or.inr (Or.inr rfl))
  exact ⟨⟨rfl, rfl⟩, h.1, h.2.2.1⟩

/-- C5 counterexample: running with the unsupported architecture `"z80"`
(artifacts present) does not raise a configuration-time error — the
`ValueError` from `_build_qemu_cmd` is caught by the generic `except` and an
error dictionary is returned — and the temporary sandbox directory IS
created (then removed) before the architecture is ever checked. -/
theorem unsupported_arch_counterexample :
    (run_qemu ⟨"z80", "fw.bin", "pl.bin", "qemu-system-arm"⟩ ⟨true, true, true, true⟩
        (.completed "" "" 0)).1
      = .returned (errResult "Unsupported arch for QEMU: z80")
  ∧ (run_qemu ⟨"z80", "fw.bin", "pl.bin", "qemu-system-arm"⟩ ⟨true, true, true, true⟩
        (.completed "" "" 0)).2.tempDirCreated = true := ⟨rfl, rfl⟩

/-- C5 amended: an unsupported architecture makes `_build_qemu_cmd` raise
`ValueError` only inside the `try` block — after the temporary directory is
created and the inputs copied — and the generic handler converts it into a
returned error dictionary rather than a propagated error; no process is
spawned, and the temporary directory is removed in the `finally`. -/
theorem unsupported_arch_amended (cfg : EmuConfig) (fs : FSEnv) (proc : ProcBehavior)
    (hf : fs.firmwareExists = true) (hp : fs.payloadExists = true)
    (hfr : fs.firmwareReadable = true) (hpr : fs.payloadReadable = true)
    (ha : cfg.arch ≠ "arm" ∧ cfg.arch ≠ "riscv" ∧ cfg.arch ≠ "mips") :
    (run_qemu cfg fs proc).1
      = .returned (errResult ("Unsupported arch for QEMU: " ++ cfg.arch))
  ∧ (run_qemu cfg fs proc).2.tempDirCreated = true
  ∧ (run_qemu cfg fs proc).2.processSpawned = false
  ∧ (run_qemu cfg fs proc).2.tempDirRemoved = true := by
  have hcmd : build_qemu_cmd cfg.arch cfg.qemu_path cfg.firmware_path
      cfg.payload_path = .error ("Unsupported arch for QEMU: " ++ cfg.arch) := by
    simp [build_qemu_cmd, qemu_bin_for, ha.1, ha.2.1, ha.2.2, Except.map]
  refine ⟨?_, ?_, ?_, ?_⟩ <;> simp [run_qemu, hf, hp, hfr, hpr, hcmd]

/-- C5 amended witness: the `"z80"` configuration with both artifacts
present and a would-be completing process. -/
theorem unsupported_arch_amended_witness :
    ((⟨"z80", "f", "p", "qemu-system-arm"⟩ : EmuConfig).arch ≠ "arm"
      ∧ (⟨true, true, true, true⟩ : FSEnv).firmwareExists = true)
  ∧ (run_qemu ⟨"z80", "f", "p", "qemu-system-arm"⟩ ⟨true, true, true, true⟩
        (.completed "boot" "" 0)).1
      = .returned (errResult "Unsupported arch for QEMU: z80")
  ∧ (run_qemu ⟨"z80", "f", "p", "qemu-system-arm"⟩ ⟨true, true, true, true⟩
        (.completed "boot" "" 0)).2.processSpawned = false := by
  have h := unsupported_arch_amended ⟨"z80", "f", "p", "qemu-system-arm"⟩
    ⟨true, true, true, true⟩ (.completed "boot" "" 0) rfl rfl rfl rfl
    ⟨by decide, by decide, by decide⟩
  exact ⟨⟨by decide, rfl⟩, h.1, h.2.2.1⟩

/-- C6 counterexample: a firmware artifact that exists but is not readable
passes both `os.path.isfile` checks — the temporary sandbox directory IS
created, and instead of a propagated artifact-not-found failure the
`PermissionError` raised by `shutil.copy2` is swallowed by the generic
`except` into a returned error dictionary. -/
theorem artifact_unreadable_counterexample :
    (run_qemu ⟨"arm", "fw.locked", "p.bin", "qemu-system-arm"⟩ ⟨true, true, false, true⟩
        (.completed "" "" 0)).1
      = .returned (errResult "Permission denied: fw.locked")
  ∧ (run_qemu ⟨"arm", "fw.locked", "p.bin", "qemu-system-arm"⟩ ⟨true, true, false, true⟩
        (.completed "" "" 0)).2.tempDirCreated = true := ⟨rfl, rfl⟩

/-- C6 amended: only an artifact that fails `os.path.isfile` (it does not
exist as a file) makes the run fail early — `FileNotFoundError` propagates,
no temporary directory is created and no process is spawned.  An artifact
that exists but is not readable passes both checks: the temporary directory
is created, the `PermissionError` from the copy is caught into a returned
error dictionary, no process is spawned, and the directory is removed. -/
theorem artifact_check_behavior (cfg : EmuConfig) (fs : FSEnv)
    (proc : ProcBehavior) :
    (fs.firmwareExists = false ∨ fs.payloadExists = false →
       (∃ msg, (run_qemu cfg fs proc).1 = .raised msg)
     ∧ (run_qemu cfg fs proc).2.tempDirCreated = false
     ∧ (run_qemu cfg fs proc).2.processSpawned = false)
  ∧ (fs.firmwareExists = true → fs.payloadExists = true →
     fs.firmwareReadable = false ∨ fs.payloadReadable = false →
       (∃ msg, (run_qemu cfg fs proc).1 = .returned (errResult msg))
     ∧ (run_qemu cfg fs proc).2.tempDirCreated = true
     ∧ (run_qemu cfg fs proc).2.processSpawned = false
     ∧ (run_qemu cfg fs proc).2.tempDirRemoved = true) := by
  constructor
  · intro h
    rcases h with h | h
    · exact ⟨⟨"Firmware not found: " ++ cfg.firmware_path, by simp [run_qemu, h]⟩,
        by simp [run_qemu, h, noEffects], by simp [run_qemu, h, noEffects]⟩
    · cases hf : fs.firmwareExists
      · exact ⟨⟨"Firmware not found: " ++ cfg.firmware_path, by simp [run_qemu, hf]⟩,
          by simp [run_qemu, hf, noEffects], by simp [run_qemu, hf, noEffects]⟩
      · exact ⟨⟨"Payload not found: " ++ cfg.payload_path,
          by simp [run_qemu, hf, h]⟩,
          by simp [run_qemu, hf, h, noEffects], by simp [run_qemu, hf, h, noEffects]⟩
  · intro hf hp h
    rcases h with h | h
    · exact ⟨⟨"Permission denied: " ++ cfg.firmware_path,
        by simp [run_qemu, hf, hp, h]⟩,
        by simp [run_qemu, hf, hp, h], by simp [run_qemu, hf, hp, h],
        by simp [run_qemu, hf, hp, h]⟩
    · cases hfr : fs.firmwareReadable
      · exact ⟨⟨"Permission denied: " ++ cfg.firmware_path,
          by simp [run_qemu, hf, hp, hfr]⟩,
          by simp [run_qemu, hf, hp, hfr], by simp [run_qemu, hf, hp, hfr],
          by simp [run_qemu, hf, hp, hfr]⟩
      · exact ⟨⟨"Permission denied: " ++ cfg.payload_path,
          by simp [run_qemu, hf, hp, hfr, h]⟩,
          by simp [run_qemu, hf, hp, hfr, h], by simp [run_qemu, hf, hp, hfr, h],
          by simp [run_qemu, hf, hp, hfr, h]⟩

/-- C6 amended witness: a missing firmware file raises without creating the
temp directory, and an unreadable firmware file yields a created (and
removed) temp directory with a returned error dictionary. -/
theorem artifact_check_behavior_witness :
    ((⟨false, true, true, true⟩ : FSEnv).firmwareExists = false
      ∧ (run_qemu ⟨"arm", "missing.bin", "p.bin", "qemu-system-arm"⟩
          ⟨false, true, true, true⟩ (.completed "" "" 0)).2.tempDirCreated = false)
  ∧ ((⟨true, true, false, true⟩ : FSEnv).firmwareReadable = false
      ∧ (run_qemu ⟨"arm", "locked.bin", "p.bin", "qemu-system-arm"⟩
          ⟨true, true, false, true⟩ (.completed "" "" 0)).2.tempDirCreated = true) := by
  have h1 := (artifact_check_behavior ⟨"arm", "missing.bin", "p.bin",
    "qemu-system-arm"⟩ ⟨false, true, true, true⟩ (.completed "" "" 0)).1
    (Or.inl rfl)
  have h2 := (artifact_check_behavior ⟨"arm", "locked.bin", "p.bin",
    "qemu-system-arm"⟩ ⟨true, true, false, true⟩ (.completed "" "" 0)).2
    rfl rfl (Or.inl rfl)
  exact ⟨⟨rfl, h1.2.1⟩, ⟨rfl, h2.2.1⟩⟩

/-- C9: every invocation of `_run_qemu` that creates the temporary sandbox
directory also removes it before returning — the `finally` runs on the
normal path, the caught-exception paths (unreadable artifact copy,
unsupported arch, spawn failure) and the timeout path alike. -/
theorem tempdir_always_removed (cfg : EmuConfig) (fs : FSEnv) (proc : ProcBehavior)
    (h : (run_qemu cfg fs proc).2.tempDirCreated = true) :
    (run_qemu cfg fs proc).2.tempDirRemoved = true := by
  cases hf : fs.firmwareExists
  · simp [run_qemu, hf, noEffects] at h
  · cases hp : fs.payloadExists
    · simp [run_qemu, hf, hp, noEffects] at h
    · cases hfr : fs.firmwareReadable
      · simp [run_qemu, hf, hp, hfr]
      · cases hpr : fs.payloadReadable
        · simp [run_qemu, hf, hp, hfr, hpr]
        · cases hc : build_qemu_cmd cfg.arch cfg.qemu_path cfg.firmware_path
            cfg.payload_path <;> cases proc <;>
            simp [run_qemu, hf, hp, hfr, hpr, hc]

/-- C9 witness: a timed-out run both creates and removes its temp dir. -/
theorem tempdir_always_removed_witness :
    (run_qemu ⟨"riscv", "f.img", "p.img", "qemu-system-arm"⟩ ⟨true, true, true, true⟩
        (.timedOut "timed out")).2.tempDirCreated = true
  ∧ (run_qemu ⟨"riscv", "f.img", "p.img", "qemu-system-arm"⟩ ⟨true, true, true, true⟩
        (.timedOut "timed out")).2.tempDirRemoved = true :=
  ⟨rfl, tempdir_always_removed ⟨"riscv", "f.img", "p.img", "qemu-system-arm"⟩
    ⟨true, true, true, true⟩ (.timedOut "timed out") rfl⟩

end NanoSploit
